import Mathlib

/-!
# StoryScape — verification of the RAG story-generation pipeline

Shallow embedding of the `stories` app: the data model (`Story`,
`FlashCard`, `CardConnection` from `stories/models.py`), the utility
functions (`stories/utils.py`), the celery tasks (`stories/tasks.py`)
and the turn-submission endpoint (`stories/views.py` +
`stories/serializers.py`).

Modelling conventions:
* Embedding vectors are `List ℚ` (the Python code passes lists of
  floats; the claims checked here concern lengths, scoping and control
  flow, never float rounding).  A vector field that was never assigned
  is the empty list, mirroring Python falsiness of `None`/`[]` in
  `if not self.embedding`.
* The external sentence-transformers model is an abstract `encode`
  function that can fail (`Option`), packaged with its interface
  contract that a successful encode of `all-MiniLM-L6-v2` has
  dimension 384 (`models.py` declares `VectorField(dimensions=384)`).
* The database is an explicit `DB` record threaded through the tasks;
  Django's per-insert atomicity becomes ordinary state passing, and
  exceptions become explicit outcome values, mirroring the
  `try`/`except` structure of the Python code.
* The pgvector `CosineDistance` metric lives in the external database;
  it is a parameter `dist` of the search, and `order_by` is a stable
  insertion sort on that key.
-/

namespace StoryScape

/-- Embedding vectors as stored in the `VectorField`. -/
abbrev Embedding := List ℚ

/-- The external sentence-transformers model (`all-MiniLM-L6-v2`).
`encode` returns `none` when the invocation raises; the interface
contract of the model family fixes the output dimension at 384. -/
structure SentenceTransformer where
  encode : String → Option Embedding
  encode_dim : ∀ t v, encode t = some v → v.length = 384

/-- Model of `utils.generate_embedding`: if the module-level model failed to
load (`embedding_model = none`) return the 384-dimensional zero
vector; otherwise try to encode, and on an encode exception return the
zero vector. -/
def generate_embedding (embedding_model : Option SentenceTransformer)
    (text : String) : Embedding :=
  match embedding_model with
  | none => List.replicate 384 0
  | some m =>
    match m.encode text with
    | none => List.replicate 384 0
    | some v => v

/-- Model of `models.Story` (identity fields only; timestamps are not modelled). -/
structure Story where
  id : Nat
  ownerId : Nat
  title : String
  initial_prompt : String
deriving Repr, DecidableEq

/-- Model of `models.FlashCard`: a story segment with its embedding. -/
structure Card where
  id : Nat
  storyId : Nat
  content_text : String
  embedding : Embedding
  image_url : Option String
deriving Repr, DecidableEq

/-- Model of `models.CardConnection`: a directed edge of the story graph. -/
structure Edge where
  id : Nat
  storyId : Nat
  sourceId : Nat
  targetId : Nat
deriving Repr, DecidableEq

/-- The persistent store: all three tables plus the id sequence. -/
structure DB where
  stories : List Story
  cards : List Card
  edges : List Edge
  nextId : Nat
deriving Repr

/-- The `FlashCard.save` override (`models.py` lines 40-45): generate an
embedding from `content_text` when none was provided, then persist.
This returns the record as it is written to the row. -/
def FlashCard.save_hook (embedding_model : Option SentenceTransformer)
    (c : Card) : Card :=
  if c.embedding.isEmpty then
    { c with embedding := generate_embedding embedding_model c.content_text }
  else c

/-- Stable insertion of `a` into a list sorted by the boolean key
order `le`: `a` goes before the first element it compares `le` to. -/
def insertLe (le : Card → Card → Bool) (a : Card) : List Card → List Card
  | [] => [a]
  | b :: bs => if le a b then a :: b :: bs else b :: insertLe le a bs

/-- Django's `.order_by(...)` on a card queryset, as a stable
insertion sort on the comparison key. -/
def order_by (le : Card → Card → Bool) : List Card → List Card
  | [] => []
  | a :: as' => insertLe le a (order_by le as')

/-- The cards `utils.perform_rag_search` selects: filter the cards of
`story_id`, order ascending by the pgvector distance of their
embedding to the query, take the first `top_k`.  `dist` is the
external `CosineDistance` metric. -/
def rag_selected_cards (dist : Embedding → Embedding → ℚ) (db : DB)
    (story_id : Nat) (query_embedding : Embedding) (top_k : Nat) : List Card :=
  ((order_by
      (fun a b => decide (dist a.embedding query_embedding ≤ dist b.embedding query_embedding))
      (db.cards.filter (fun c => c.storyId == story_id))).take top_k)

/-- Model of `utils.perform_rag_search` (`utils.py` lines 119-145): the content
texts of the selected cards, most similar first. -/
def perform_rag_search (dist : Embedding → Embedding → ℚ) (db : DB)
    (story_id : Nat) (query_embedding : Embedding) (top_k : Nat) : List String :=
  (rag_selected_cards dist db story_id query_embedding top_k).map (·.content_text)

/-- Model of `utils.generate_story_segment` (placeholder LLM): builds an
augmented prompt from context, but the returned text uses only the
user prompt. -/
def generate_story_segment (context user_prompt : String) : String :=
  let augmented_prompt := "Context: " ++ context ++
      "\n\n---\n\nContinue the story based on this prompt: " ++ user_prompt ++
      "\n\nStory continuation:"
  let _ := augmented_prompt
  "Based on the context and your prompt '" ++ user_prompt ++
    "', here is the next segment of the story..."

/-- Model of `utils.generate_image` (placeholder diffusion model). -/
def generate_image (prompt : String) (style : Option String) : String :=
  let _ := style
  "https://placeholder.com/image?text=" ++ prompt.replace " " "+"

/-- From `tasks.py` line 33: the context string handed to the generator —
the retrieved texts joined by a blank line, or the no-context sentinel
when the retrieved list is falsy (empty). -/
def assemble_context (context_segments : List String) : String :=
  if context_segments.isEmpty then "No previous context available."
  else String.intercalate "\n\n" context_segments

/-- Python truthiness of an optional integer argument
(`if parent_card_id:` — `None` and `0` are both falsy). -/
def truthy : Option Nat → Bool
  | none => false
  | some n => n != 0

/-- A log line emitted through `logging`. -/
inductive LogEntry where
  | warning (msg : String)
  | info (msg : String)
  | error (msg : String)
deriving Repr, DecidableEq

/-- The dict a task returns: `{'success': True, 'card_id': ..,
'generated_text': ..}` or `{'success': False, 'error': ..}`. -/
inductive TaskResult where
  | success (card_id : Nat) (generated_text : String)
  | failure (error : String)
deriving Repr, DecidableEq

/-- The environment a task runs in: the loaded embedding model, the
external distance metric of the vector index, and fault injection for
the three storage writes of the turn task (a `some msg` makes the
corresponding ORM call raise, modelling a storage-layer exception;
Django wraps no cross-step transaction around them). -/
structure Env where
  embedding_model : Option SentenceTransformer
  dist : Embedding → Embedding → ℚ
  create_card_fault : Option String
  save_card_fault : Option String
  create_edge_fault : Option String

/-- Model of `FlashCard.objects.create(...)`: runs the `save` override and
appends the row, allocating the next id.  Returns the new state and
the id. -/
def FlashCard.objects_create (embedding_model : Option SentenceTransformer)
    (db : DB) (storyId : Nat) (content_text : String) (embedding : Embedding) :
    DB × Nat :=
  let card := FlashCard.save_hook embedding_model
    { id := db.nextId, storyId := storyId, content_text := content_text,
      embedding := embedding, image_url := none }
  ({ db with cards := db.cards ++ [card], nextId := db.nextId + 1 }, db.nextId)

/-- Overwrite the row with id `cardId` (a `card.save()` on an existing
record, after the `save` override ran). -/
def DB.writeCard (db : DB) (cardId : Nat) (card : Card) : DB :=
  { db with cards := db.cards.map (fun c => if c.id == cardId then card else c) }

/-- Model of `Story.objects.get(id=story_id)`. -/
def Story.objects_get (db : DB) (story_id : Nat) : Option Story :=
  db.stories.find? (fun s => s.id == story_id)

/-- Model of `tasks.generate_story_segment_task` (`tasks.py` lines 15-73): the
full turn pipeline — embed the prompt, RAG-search the story, assemble
context, generate, persist the new card with the query embedding as
provisional embedding, rewrite it with the embedding of the generated
text, then best-effort link from the parent.  The whole body sits in
`try`/`except Exception`, so every error path returns a structured
failure; the inner `except ObjectDoesNotExist` around the parent
lookup turns a missing parent into a warning only.  Returns the new
store, the log, and the returned dict. -/
def generate_story_segment_task (env : Env) (db : DB) (story_id : Nat)
    (user_prompt : String) (parent_card_id : Option Nat) :
    DB × List LogEntry × TaskResult :=
  match Story.objects_get db story_id with
  | none =>
    (db,
     [LogEntry.error ("Error generating story segment for story " ++
        toString story_id ++ ": " ++ "Story matching query does not exist.")],
     TaskResult.failure "Story matching query does not exist.")
  | some story =>
    let query_embedding := generate_embedding env.embedding_model user_prompt
    let context_segments := perform_rag_search env.dist db story_id query_embedding 5
    let context := assemble_context context_segments
    let generated_text := generate_story_segment context user_prompt
    match env.create_card_fault with
    | some e =>
      (db,
       [LogEntry.error ("Error generating story segment for story " ++
          toString story_id ++ ": " ++ e)],
       TaskResult.failure e)
    | none =>
      let created := FlashCard.objects_create env.embedding_model db story.id
        generated_text query_embedding
      let db1 := created.1
      let cid := created.2
      match env.save_card_fault with
      | some e =>
        (db1,
         [LogEntry.error ("Error generating story segment for story " ++
            toString story_id ++ ": " ++ e)],
         TaskResult.failure e)
      | none =>
        let card1 := FlashCard.save_hook env.embedding_model
          { id := cid, storyId := story.id, content_text := generated_text,
            embedding := generate_embedding env.embedding_model generated_text,
            image_url := none }
        let db2 := db1.writeCard cid card1
        if truthy parent_card_id then
          let pid := parent_card_id.getD 0
          match db2.cards.find? (fun c => c.id == pid && c.storyId == story.id) with
          | none =>
            (db2,
             [LogEntry.warning ("Parent card " ++ toString pid ++
                " not found for story " ++ toString story_id),
              LogEntry.info ("Successfully generated story segment for story " ++
                toString story_id)],
             TaskResult.success cid generated_text)
          | some _ =>
            match env.create_edge_fault with
            | some e =>
              (db2,
               [LogEntry.error ("Error generating story segment for story " ++
                  toString story_id ++ ": " ++ e)],
               TaskResult.failure e)
            | none =>
              let db3 := { db2 with
                edges := db2.edges ++
                  [{ id := db2.nextId, storyId := story.id,
                     sourceId := pid, targetId := cid }],
                nextId := db2.nextId + 1 }
              (db3,
               [LogEntry.info ("Successfully generated story segment for story " ++
                  toString story_id)],
               TaskResult.success cid generated_text)
        else
          (db2,
           [LogEntry.info ("Successfully generated story segment for story " ++
              toString story_id)],
           TaskResult.success cid generated_text)

/-- Model of `FlashCard.objects.get(id=flashcard_id)`. -/
def FlashCard.objects_get (db : DB) (flashcard_id : Nat) : Option Card :=
  db.cards.find? (fun c => c.id == flashcard_id)

/-- Model of `tasks.generate_image_task` (`tasks.py` lines 76-106): look the
card up, generate an image url from its content, write it back through
`save`. -/
def generate_image_task (env : Env) (db : DB) (flashcard_id : Nat)
    (style : Option String) : DB × List LogEntry × TaskResult :=
  match FlashCard.objects_get db flashcard_id with
  | none =>
    (db,
     [LogEntry.error ("Error generating image for flashcard " ++
        toString flashcard_id ++ ": " ++ "FlashCard matching query does not exist.")],
     TaskResult.failure "FlashCard matching query does not exist.")
  | some flashcard =>
    let image_url := generate_image flashcard.content_text style
    let card1 := FlashCard.save_hook env.embedding_model
      { flashcard with image_url := some image_url }
    (db.writeCard flashcard_id card1,
     [LogEntry.info ("Successfully generated image for flashcard " ++
        toString flashcard_id)],
     TaskResult.success flashcard_id image_url)

/-- Model of `tasks.recalculate_embedding_task` (`tasks.py` lines 109-139):
re-embed the card's current content text and write it back. -/
def recalculate_embedding_task (env : Env) (db : DB) (flashcard_id : Nat) :
    DB × List LogEntry × TaskResult :=
  match FlashCard.objects_get db flashcard_id with
  | none =>
    (db,
     [LogEntry.error ("Error recalculating embedding for flashcard " ++
        toString flashcard_id ++ ": " ++ "FlashCard matching query does not exist.")],
     TaskResult.failure "FlashCard matching query does not exist.")
  | some flashcard =>
    let new_embedding := generate_embedding env.embedding_model flashcard.content_text
    let card1 := FlashCard.save_hook env.embedding_model
      { flashcard with embedding := new_embedding }
    (db.writeCard flashcard_id card1,
     [LogEntry.info ("Successfully recalculated embedding for flashcard " ++
        toString flashcard_id)],
     TaskResult.success flashcard_id flashcard.content_text)

/-- Model of `tasks.create_initial_story_task` (`tasks.py` lines 142-175):
generate the first segment from the story's initial prompt with empty
context, persist it with the embedding of the generated text. -/
def create_initial_story_task (env : Env) (db : DB) (story_id : Nat) :
    DB × List LogEntry × TaskResult :=
  match Story.objects_get db story_id with
  | none =>
    (db,
     [LogEntry.error ("Error creating initial story for story " ++
        toString story_id ++ ": " ++ "Story matching query does not exist.")],
     TaskResult.failure "Story matching query does not exist.")
  | some story =>
    let generated_text := generate_story_segment "" story.initial_prompt
    let created := FlashCard.objects_create env.embedding_model db story.id
      generated_text (generate_embedding env.embedding_model generated_text)
    (created.1,
     [LogEntry.info ("Successfully created initial story segment for story " ++
        toString story_id)],
     TaskResult.success created.2 generated_text)

/-- The spec's `SegmentGraph.create_edge`: create a `CardConnection`
through Django validation.  The checks are the ones declared on the
model in `models.py` — `CardConnection.clean` (same story, no
self-loop; Django model equality is primary-key equality) and the
`unique_together ['source_card', 'target_card']` constraint, both of
which `full_clean` reports as `ValidationError`.  On success the edge
row is inserted; on error nothing is written. -/
def create_edge (db : DB) (story_id source_id target_id : Nat) :
    Except String DB :=
  match FlashCard.objects_get db source_id, FlashCard.objects_get db target_id with
  | some source_card, some target_card =>
    if source_card.storyId != target_card.storyId then
      Except.error "Source and target cards must belong to the same story"
    else if source_card.id == target_card.id then
      Except.error "A card cannot connect to itself"
    else if db.edges.any (fun e => e.sourceId == source_id && e.targetId == target_id) then
      Except.error "Card connection with this Source card and Target card already exists."
    else
      Except.ok { db with
        edges := db.edges ++
          [{ id := db.nextId, storyId := story_id,
             sourceId := source_id, targetId := target_id }],
        nextId := db.nextId + 1 }
  | _, _ => Except.error "Card connection has no source or target card."

/-- Model of `serializers.FlashCardCreateSerializer.validate_parent_card_id`
(`serializers.py` lines 59-66): when the value is truthy, the parent
must be a card of this story, else `ValidationError`. -/
def validate_parent_card_id (db : DB) (story_id : Nat) (value : Option Nat) :
    Except String (Option Nat) :=
  if truthy value then
    match db.cards.find? (fun c => c.id == value.getD 0 && c.storyId == story_id) with
    | none => Except.error "Parent card does not exist in this story"
    | some _ => Except.ok value
  else Except.ok value

/-- The HTTP outcome of the turn-submission endpoint.  `accepted`
carries only the task handle and story id (`{'message': ...,
'task_id': ..., 'story_id': ...}`) — no generated content exists yet
when the response is produced. -/
inductive ViewOutcome where
  | notFound
  | validationError (msg : String)
  | accepted (task_id : Nat) (story_id : Nat)
deriving Repr, DecidableEq

/-- HTTP status code of each outcome (404 from `get_object_or_404`,
400 from `is_valid(raise_exception=True)`, `HTTP_202_ACCEPTED`). -/
def ViewOutcome.statusCode : ViewOutcome → Nat
  | ViewOutcome.notFound => 404
  | ViewOutcome.validationError _ => 400
  | ViewOutcome.accepted _ _ => 202

/-- A `generate_story_segment_task.delay(...)` call placed on the
celery queue. -/
structure Dispatch where
  story_id : Nat
  user_prompt : String
  parent_card_id : Option Nat
deriving Repr, DecidableEq

/-- Model of `views.FlashCardCreateView.create` (`views.py` lines 59-84):
resolve the story for this owner or 404, run serializer validation
(parent check) or 400, then enqueue the pipeline and answer 202 with
the task id.  Returns the outcome together with the list of queue
dispatches the call made; `task_id` is modelled as the queue position. -/
def FlashCardCreateView.create (db : DB) (request_user : Nat) (story_pk : Nat)
    (user_prompt : String) (parent_card_id : Option Nat) :
    ViewOutcome × List Dispatch :=
  match db.stories.find? (fun s => s.id == story_pk && s.ownerId == request_user) with
  | none => (ViewOutcome.notFound, [])
  | some _ =>
    match validate_parent_card_id db story_pk parent_card_id with
    | Except.error msg => (ViewOutcome.validationError msg, [])
    | Except.ok validated =>
      (ViewOutcome.accepted 0 story_pk,
       [{ story_id := story_pk, user_prompt := user_prompt,
          parent_card_id := validated }])

/-- Test fixture: an environment with no model loaded, a trivial
metric and no storage faults. -/
def envW : Env :=
  { embedding_model := none, dist := fun _ _ => 0,
    create_card_fault := none, save_card_fault := none,
    create_edge_fault := none }

/-- Test fixture: one story, empty cards and edges tables. -/
def dbW : DB :=
  { stories := [{ id := 1, ownerId := 7, title := "T", initial_prompt := "Once" }],
    cards := [], edges := [], nextId := 1 }

/-- Test fixture: one story owning one card. -/
def dbW1 : DB :=
  { stories := [{ id := 1, ownerId := 7, title := "T", initial_prompt := "Once" }],
    cards := [{ id := 1, storyId := 1, content_text := "start",
                embedding := List.replicate 384 0, image_url := none }],
    edges := [], nextId := 2 }

/-- Test fixture: like `envW` but the edge insert raises. -/
def envF : Env :=
  { embedding_model := none, dist := fun _ _ => 0,
    create_card_fault := none, save_card_fault := none,
    create_edge_fault := some "boom" }

/-! ## Helper lemmas -/

theorem mem_insertLe (le : Card → Card → Bool) (a : Card) (l : List Card) (x : Card) :
    x ∈ insertLe le a l ↔ x = a ∨ x ∈ l := by
  induction l with
  | nil => simp [insertLe]
  | cons b bs ih =>
    by_cases h : le a b = true
    · simp [insertLe, h]
    · simp only [insertLe, if_neg h, List.mem_cons, ih]
      tauto

theorem mem_order_by (le : Card → Card → Bool) (l : List Card) (x : Card) :
    x ∈ order_by le l ↔ x ∈ l := by
  induction l with
  | nil => simp [order_by]
  | cons a as ih => simp [order_by, mem_insertLe, ih]

theorem mem_rag_selected_cards (dist : Embedding → Embedding → ℚ) (db : DB)
    (story_id : Nat) (q : Embedding) (k : Nat) (c : Card)
    (hc : c ∈ rag_selected_cards dist db story_id q k) :
    c ∈ db.cards ∧ c.storyId = story_id := by
  have h1 : c ∈ order_by
      (fun a b => decide (dist a.embedding q ≤ dist b.embedding q))
      (db.cards.filter (fun c => c.storyId == story_id)) :=
    List.take_subset k _ hc
  have h2 := (mem_order_by _ _ c).mp h1
  have h3 := List.mem_filter.mp h2
  exact ⟨h3.1, by simpa using h3.2⟩

theorem generate_embedding_length (m : Option SentenceTransformer) (t : String) :
    (generate_embedding m t).length = 384 := by
  cases m with
  | none => exact List.length_replicate 384 0
  | some mm =>
    cases henc : mm.encode t with
    | none =>
      show (generate_embedding (some mm) t).length = 384
      rw [generate_embedding, henc]
      exact List.length_replicate 384 0
    | some v =>
      show (generate_embedding (some mm) t).length = 384
      rw [generate_embedding, henc]
      exact mm.encode_dim t v henc

theorem generate_embedding_ne_nil (m : Option SentenceTransformer) (t : String) :
    generate_embedding m t ≠ [] := by
  intro h
  have hl := generate_embedding_length m t
  rw [h] at hl
  simp at hl

theorem save_hook_of_ne_nil (m : Option SentenceTransformer) (c : Card)
    (h : c.embedding ≠ []) : FlashCard.save_hook m c = c := by
  unfold FlashCard.save_hook
  rw [if_neg]
  simp only [List.isEmpty_iff]
  exact h

theorem save_hook_generate (m : Option SentenceTransformer) (i sid : Nat)
    (txt t' : String) (u : Option String) :
    FlashCard.save_hook m
      ({ id := i, storyId := sid, content_text := txt,
         embedding := generate_embedding m t', image_url := u } : Card) =
      ({ id := i, storyId := sid, content_text := txt,
         embedding := generate_embedding m t', image_url := u } : Card) :=
  save_hook_of_ne_nil m _ (generate_embedding_ne_nil m t')

/-- The cards table after the turn task, once the story lookup and
both card writes went through: the new row appended with the query
embedding, then rewritten with the text embedding.  Holds in every
later branch (missing parent, edge fault, edge created, no parent). -/
theorem task_cards_unfold (env : Env) (db : DB) (story : Story)
    (story_id : Nat) (user_prompt : String) (parent_card_id : Option Nat)
    (hstory : Story.objects_get db story_id = some story)
    (hcf : env.create_card_fault = none) (hsf : env.save_card_fault = none) :
    (generate_story_segment_task env db story_id user_prompt parent_card_id).1.cards =
      (db.cards ++
        ([{ id := db.nextId, storyId := story.id,
            content_text := generate_story_segment
              (assemble_context (perform_rag_search env.dist db story_id
                (generate_embedding env.embedding_model user_prompt) 5)) user_prompt,
            embedding := generate_embedding env.embedding_model user_prompt,
            image_url := none }] : List Card)).map
        (fun c : Card => if c.id == db.nextId then
          { id := db.nextId, storyId := story.id,
            content_text := generate_story_segment
              (assemble_context (perform_rag_search env.dist db story_id
                (generate_embedding env.embedding_model user_prompt) 5)) user_prompt,
            embedding := generate_embedding env.embedding_model
              (generate_story_segment
                (assemble_context (perform_rag_search env.dist db story_id
                  (generate_embedding env.embedding_model user_prompt) 5)) user_prompt),
            image_url := none }
          else c) := by
  simp only [generate_story_segment_task, hstory, hcf, hsf,
    FlashCard.objects_create, DB.writeCard, save_hook_generate]
  split
  · split
    · rfl
    · split
      · rfl
      · rfl
  · rfl

/-- The returned dict of the turn task when no step fails: success
with the new card id and the generated text (the link step is
best-effort, so a missing parent still ends in success). -/
theorem task_result_unfold (env : Env) (db : DB) (story : Story)
    (story_id : Nat) (user_prompt : String) (parent_card_id : Option Nat)
    (hstory : Story.objects_get db story_id = some story)
    (hcf : env.create_card_fault = none) (hsf : env.save_card_fault = none)
    (hef : env.create_edge_fault = none) :
    (generate_story_segment_task env db story_id user_prompt parent_card_id).2.2 =
      TaskResult.success db.nextId
        (generate_story_segment
          (assemble_context (perform_rag_search env.dist db story_id
            (generate_embedding env.embedding_model user_prompt) 5)) user_prompt) := by
  simp only [generate_story_segment_task, hstory, hcf, hsf, hef,
    FlashCard.objects_create, DB.writeCard, save_hook_generate]
  split
  · split
    · rfl
    · rfl
  · rfl

/-- Exhaustive outcome analysis of the turn task: either it returns
success, or it returns a structured failure, in which case no edge was
written, the cards table is unchanged or holds exactly one new row
(the already-persisted new segment, never rolled back, with a
populated embedding), and the error was logged with the originating
message. -/
theorem task_outcomes (env : Env) (db : DB) (story_id : Nat)
    (user_prompt : String) (parent_card_id : Option Nat) :
    (∃ cid txt,
      (generate_story_segment_task env db story_id user_prompt
        parent_card_id).2.2 = TaskResult.success cid txt) ∨
    (∃ e,
      (generate_story_segment_task env db story_id user_prompt
        parent_card_id).2.2 = TaskResult.failure e ∧
      (generate_story_segment_task env db story_id user_prompt
        parent_card_id).1.edges = db.edges ∧
      ((generate_story_segment_task env db story_id user_prompt
          parent_card_id).1.cards = db.cards ∨
        ((generate_story_segment_task env db story_id user_prompt
            parent_card_id).1.cards.length = db.cards.length + 1 ∧
          ∃ c ∈ (generate_story_segment_task env db story_id user_prompt
            parent_card_id).1.cards, c.id = db.nextId ∧ c.embedding ≠ [])) ∧
      LogEntry.error ("Error generating story segment for story " ++
          toString story_id ++ ": " ++ e) ∈
        (generate_story_segment_task env db story_id user_prompt
          parent_card_id).2.1) := by
  simp only [generate_story_segment_task, FlashCard.objects_create,
    DB.writeCard, save_hook_generate]
  split
  · -- story missing
    exact Or.inr ⟨_, rfl, rfl, Or.inl rfl, List.mem_singleton.mpr rfl⟩
  · split
    · -- create fault
      exact Or.inr ⟨_, rfl, rfl, Or.inl rfl, List.mem_singleton.mpr rfl⟩
    · split
      · -- save fault: the provisional row is already persisted
        refine Or.inr ⟨_, rfl, rfl, Or.inr ⟨by simp, ?_⟩,
          List.mem_singleton.mpr rfl⟩
        exact ⟨_, List.mem_append_right _ (List.mem_singleton.mpr rfl),
          rfl, generate_embedding_ne_nil _ _⟩
      · split
        · split
          · -- parent missing: success
            exact Or.inl ⟨_, _, rfl⟩
          · split
            · -- edge write fault: the new segment is already persisted
              refine Or.inr ⟨_, rfl, rfl, Or.inr ⟨by simp, ?_⟩,
                List.mem_singleton.mpr rfl⟩
              refine ⟨_, List.mem_map.mpr ⟨_,
                List.mem_append_right _ (List.mem_singleton.mpr rfl), rfl⟩, ?_⟩
              simp [generate_embedding_ne_nil]
            · -- edge created: success
              exact Or.inl ⟨_, _, rfl⟩
        · -- no parent given: success
          exact Or.inl ⟨_, _, rfl⟩

/-! ## Claims -/

/-- C1: `perform_rag_search` is story-scoped — every card it selects
for story `s1` is a card of `s1` stored in the database, a card of a
distinct story `s2` is never selected, the returned strings are
exactly the content texts of the selected cards, and `top_k` bounds
the result count. -/
theorem rag_search_story_scoped (dist : Embedding → Embedding → ℚ) (db : DB)
    (s1 s2 : Nat) (q : Embedding) (k : Nat) :
    (∀ c ∈ rag_selected_cards dist db s1 q k, c ∈ db.cards ∧ c.storyId = s1) ∧
    (s1 ≠ s2 → ∀ c ∈ db.cards, c.storyId = s2 →
      c ∉ rag_selected_cards dist db s1 q k) ∧
    perform_rag_search dist db s1 q k =
      (rag_selected_cards dist db s1 q k).map (fun c => c.content_text) ∧
    (perform_rag_search dist db s1 q k).length ≤ k := by
  refine ⟨fun c hc => mem_rag_selected_cards dist db s1 q k c hc, ?_, rfl, ?_⟩
  · intro hne c _ hc2 hsel
    exact hne (((mem_rag_selected_cards dist db s1 q k c hsel).2).symm.trans hc2)
  · have h : (rag_selected_cards dist db s1 q k).length ≤ k :=
      List.length_take_le k _
    simpa [perform_rag_search] using h

/-- Witness for C1 at a concrete store: two stories, a card in each,
the search on story 1 selects only the card of story 1. -/
theorem rag_search_story_scoped_witness :
    (1 : Nat) ≠ 2 ∧
    (∀ c ∈ rag_selected_cards (fun _ _ => 0)
        { stories := [], cards := [
            { id := 10, storyId := 1, content_text := "a",
              embedding := [1], image_url := none },
            { id := 11, storyId := 2, content_text := "b",
              embedding := [1], image_url := none }],
          edges := [], nextId := 12 } 1 [1] 5,
      c ∈ [({ id := 10, storyId := 1, content_text := "a",
              embedding := [1], image_url := none } : Card),
           { id := 11, storyId := 2, content_text := "b",
             embedding := [1], image_url := none }] ∧ c.storyId = 1) ∧
    (∀ c ∈ [({ id := 10, storyId := 1, content_text := "a",
               embedding := [1], image_url := none } : Card),
            { id := 11, storyId := 2, content_text := "b",
              embedding := [1], image_url := none }], c.storyId = 2 →
      c ∉ rag_selected_cards (fun _ _ => 0)
        { stories := [], cards := [
            { id := 10, storyId := 1, content_text := "a",
              embedding := [1], image_url := none },
            { id := 11, storyId := 2, content_text := "b",
              embedding := [1], image_url := none }],
          edges := [], nextId := 12 } 1 [1] 5) := by
  have h := rag_search_story_scoped (fun _ _ => 0)
    { stories := [], cards := [
        { id := 10, storyId := 1, content_text := "a",
          embedding := [1], image_url := none },
        { id := 11, storyId := 2, content_text := "b",
          embedding := [1], image_url := none }],
      edges := [], nextId := 12 } 1 2 [1] 5
  exact ⟨by decide, h.1, h.2.1 (by decide)⟩

/-- C4: `generate_embedding` always returns a vector of exactly 384
entries; when the model failed to load, or the encode call raises, the
result is the 384-dimensional zero vector. -/
theorem generate_embedding_dim (m : Option SentenceTransformer) (t : String) :
    (generate_embedding m t).length = 384 ∧
    (m = none → generate_embedding m t = List.replicate 384 0) ∧
    (∀ mm, m = some mm → mm.encode t = none →
      generate_embedding m t = List.replicate 384 0) := by
  cases m with
  | none =>
    exact ⟨List.length_replicate 384 0, fun _ => rfl, fun mm h => by cases h⟩
  | some mm =>
    cases henc : mm.encode t with
    | none =>
      refine ⟨?_, ?_, ?_⟩
      · show (generate_embedding (some mm) t).length = 384
        rw [generate_embedding, henc]
        exact List.length_replicate 384 0
      · intro h
        cases h
      · intro mm' hm _
        cases hm
        rw [generate_embedding, henc]
    | some v =>
      refine ⟨?_, ?_, ?_⟩
      · show (generate_embedding (some mm) t).length = 384
        rw [generate_embedding, henc]
        exact mm.encode_dim t v henc
      · intro h
        cases h
      · intro mm' hm henc'
        cases hm
        rw [henc] at henc'
        cases henc'

/-- Witness for C4 at a concrete input (model not loaded, empty
text). -/
theorem generate_embedding_dim_witness :
    (generate_embedding none "").length = 384 ∧
    ((none : Option SentenceTransformer) = none →
      generate_embedding none "" = List.replicate 384 0) ∧
    (∀ mm, (none : Option SentenceTransformer) = some mm → mm.encode "" = none →
      generate_embedding none "" = List.replicate 384 0) :=
  generate_embedding_dim none ""

/-- C8: the context handed to the generator in the turn task is the
retrieved texts joined by a blank line when retrieval is non-empty,
and the no-context sentinel when retrieval returns the empty
sequence. -/
theorem context_assembly (dist : Embedding → Embedding → ℚ) (db : DB)
    (story_id : Nat) (q : Embedding) (k : Nat) :
    (perform_rag_search dist db story_id q k ≠ [] →
      assemble_context (perform_rag_search dist db story_id q k) =
        String.intercalate "\n\n" (perform_rag_search dist db story_id q k)) ∧
    (perform_rag_search dist db story_id q k = [] →
      assemble_context (perform_rag_search dist db story_id q k) =
        "No previous context available.") := by
  constructor
  · intro h
    unfold assemble_context
    rw [if_neg]
    simp only [List.isEmpty_iff]
    exact h
  · intro h
    rw [h]
    rfl

/-- Witness for C8: an empty store retrieves nothing and yields the
sentinel; a one-card store retrieves one text and yields the join. -/
theorem context_assembly_witness :
    (perform_rag_search (fun _ _ => 0)
        { stories := [], cards := [], edges := [], nextId := 0 } 1 [] 5 = [] ∧
      assemble_context (perform_rag_search (fun _ _ => 0)
        { stories := [], cards := [], edges := [], nextId := 0 } 1 [] 5) =
        "No previous context available.") ∧
    (perform_rag_search (fun _ _ => 0)
        { stories := [], cards := [
            { id := 3, storyId := 1, content_text := "once",
              embedding := [1], image_url := none }],
          edges := [], nextId := 4 } 1 [] 5 ≠ [] ∧
      assemble_context (perform_rag_search (fun _ _ => 0)
        { stories := [], cards := [
            { id := 3, storyId := 1, content_text := "once",
              embedding := [1], image_url := none }],
          edges := [], nextId := 4 } 1 [] 5) =
        String.intercalate "\n\n" (perform_rag_search (fun _ _ => 0)
          { stories := [], cards := [
              { id := 3, storyId := 1, content_text := "once",
                embedding := [1], image_url := none }],
            edges := [], nextId := 4 } 1 [] 5)) :=
  ⟨⟨by decide,
    (context_assembly (fun _ _ => 0)
      { stories := [], cards := [], edges := [], nextId := 0 } 1 [] 5).2 (by decide)⟩,
   ⟨by decide,
    (context_assembly (fun _ _ => 0)
      { stories := [], cards := [
          { id := 3, storyId := 1, content_text := "once",
            embedding := [1], image_url := none }],
        edges := [], nextId := 4 } 1 [] 5).1 (by decide)⟩⟩

/-- C3: `create_edge` fails with a `ValidationError` whenever the two
endpoint cards live in different stories, or the edge would be a
self-loop, or the ordered `(source, target)` pair already has an edge;
in each such case no edge row is produced. -/
theorem create_edge_validation (db : DB) (story_id source_id target_id : Nat)
    (src tgt : Card)
    (hs : FlashCard.objects_get db source_id = some src)
    (ht : FlashCard.objects_get db target_id = some tgt)
    (hbad : src.storyId ≠ tgt.storyId ∨ source_id = target_id ∨
      db.edges.any (fun e => e.sourceId == source_id && e.targetId == target_id) = true) :
    ∃ msg, create_edge db story_id source_id target_id = Except.error msg := by
  have hsid : src.id = source_id := by
    have := List.find?_some hs
    simpa using this
  have htid : tgt.id = target_id := by
    have := List.find?_some ht
    simpa using this
  simp only [create_edge, hs, ht]
  by_cases h1 : (src.storyId != tgt.storyId) = true
  · exact ⟨_, by rw [if_pos h1]⟩
  · rw [if_neg h1]
    by_cases h2 : (src.id == tgt.id) = true
    · exact ⟨_, by rw [if_pos h2]⟩
    · rw [if_neg h2]
      by_cases h3 : db.edges.any
          (fun e => e.sourceId == source_id && e.targetId == target_id) = true
      · exact ⟨_, by rw [if_pos h3]⟩
      · exfalso
        rcases hbad with hb | hb | hb
        · exact hb (by simpa using h1)
        · exact h2 (by simp [hsid, htid, hb])
        · exact h3 hb

/-- Witness for C3: two cards in distinct stories, a self-loop, and a
duplicate pair all make `create_edge` fail. -/
theorem create_edge_validation_witness :
    (FlashCard.objects_get
        { stories := [], cards := [
            { id := 1, storyId := 1, content_text := "a",
              embedding := [1], image_url := none },
            { id := 2, storyId := 2, content_text := "b",
              embedding := [1], image_url := none }],
          edges := [], nextId := 3 } 1 =
      some { id := 1, storyId := 1, content_text := "a",
             embedding := [1], image_url := none }) ∧
    (FlashCard.objects_get
        { stories := [], cards := [
            { id := 1, storyId := 1, content_text := "a",
              embedding := [1], image_url := none },
            { id := 2, storyId := 2, content_text := "b",
              embedding := [1], image_url := none }],
          edges := [], nextId := 3 } 2 =
      some { id := 2, storyId := 2, content_text := "b",
             embedding := [1], image_url := none }) ∧
    ∃ msg, create_edge
        { stories := [], cards := [
            { id := 1, storyId := 1, content_text := "a",
              embedding := [1], image_url := none },
            { id := 2, storyId := 2, content_text := "b",
              embedding := [1], image_url := none }],
          edges := [], nextId := 3 } 1 1 2 = Except.error msg :=
  ⟨by decide, by decide,
   create_edge_validation
     { stories := [], cards := [
         { id := 1, storyId := 1, content_text := "a",
           embedding := [1], image_url := none },
         { id := 2, storyId := 2, content_text := "b",
           embedding := [1], image_url := none }],
       edges := [], nextId := 3 } 1 1 2
     { id := 1, storyId := 1, content_text := "a",
       embedding := [1], image_url := none }
     { id := 2, storyId := 2, content_text := "b",
       embedding := [1], image_url := none }
     (by decide) (by decide) (Or.inl (by decide))⟩

/-- C2: in the fully successful turn pipeline, the new segment is
first persisted with the query embedding reused as provisional
embedding, then immediately rewritten so that its stored embedding is
the embedding of its own generated text; both persisted states carry a
non-null embedding. -/
theorem two_phase_embedding_write (env : Env) (db : DB) (story : Story)
    (story_id : Nat) (user_prompt : String) (parent_card_id : Option Nat)
    (hstory : Story.objects_get db story_id = some story)
    (hcf : env.create_card_fault = none) (hsf : env.save_card_fault = none)
    (hef : env.create_edge_fault = none) :
    ∃ provisional final : Card,
      (FlashCard.objects_create env.embedding_model db story.id
        (generate_story_segment
          (assemble_context (perform_rag_search env.dist db story_id
            (generate_embedding env.embedding_model user_prompt) 5)) user_prompt)
        (generate_embedding env.embedding_model user_prompt)).1.cards =
          db.cards ++ [provisional] ∧
      provisional.id = db.nextId ∧
      provisional.embedding = generate_embedding env.embedding_model user_prompt ∧
      provisional.embedding ≠ [] ∧
      final ∈ (generate_story_segment_task env db story_id user_prompt
        parent_card_id).1.cards ∧
      final.id = db.nextId ∧
      final.content_text = provisional.content_text ∧
      final.embedding = generate_embedding env.embedding_model final.content_text ∧
      final.embedding ≠ [] ∧
      (generate_story_segment_task env db story_id user_prompt parent_card_id).2.2 =
        TaskResult.success db.nextId final.content_text := by
  refine ⟨{ id := db.nextId, storyId := story.id,
            content_text := generate_story_segment
              (assemble_context (perform_rag_search env.dist db story_id
                (generate_embedding env.embedding_model user_prompt) 5)) user_prompt,
            embedding := generate_embedding env.embedding_model user_prompt,
            image_url := none },
          { id := db.nextId, storyId := story.id,
            content_text := generate_story_segment
              (assemble_context (perform_rag_search env.dist db story_id
                (generate_embedding env.embedding_model user_prompt) 5)) user_prompt,
            embedding := generate_embedding env.embedding_model
              (generate_story_segment
                (assemble_context (perform_rag_search env.dist db story_id
                  (generate_embedding env.embedding_model user_prompt) 5)) user_prompt),
            image_url := none },
          ?_, rfl, rfl, generate_embedding_ne_nil _ _, ?_, rfl, rfl, rfl,
          generate_embedding_ne_nil _ _, ?_⟩
  · simp only [FlashCard.objects_create, save_hook_generate]
  · rw [task_cards_unfold env db story story_id user_prompt parent_card_id
      hstory hcf hsf]
    refine List.mem_map.mpr ⟨_,
      List.mem_append_right _ (List.mem_singleton.mpr rfl), ?_⟩
    simp
  · exact task_result_unfold env db story story_id user_prompt parent_card_id
      hstory hcf hsf hef

/-- Witness for C2 at a concrete store (one story, empty cards table,
model not loaded, no storage faults). -/
theorem two_phase_embedding_write_witness :
    Story.objects_get
        { stories := [{ id := 1, ownerId := 7, title := "T",
                        initial_prompt := "Once" }],
          cards := [], edges := [], nextId := 1 } 1 =
      some { id := 1, ownerId := 7, title := "T", initial_prompt := "Once" } ∧
    (∃ provisional final : Card,
      (FlashCard.objects_create none
        { stories := [{ id := 1, ownerId := 7, title := "T",
                        initial_prompt := "Once" }],
          cards := [], edges := [], nextId := 1 } 1
        (generate_story_segment
          (assemble_context (perform_rag_search (fun _ _ => 0)
            { stories := [{ id := 1, ownerId := 7, title := "T",
                            initial_prompt := "Once" }],
              cards := [], edges := [], nextId := 1 } 1
            (generate_embedding none "go on") 5)) "go on")
        (generate_embedding none "go on")).1.cards =
          ({ stories := [{ id := 1, ownerId := 7, title := "T",
                           initial_prompt := "Once" }],
             cards := [], edges := [], nextId := 1 } : DB).cards ++ [provisional] ∧
      provisional.id = 1 ∧
      provisional.embedding = generate_embedding none "go on" ∧
      provisional.embedding ≠ [] ∧
      final ∈ (generate_story_segment_task
        { embedding_model := none, dist := fun _ _ => 0,
          create_card_fault := none, save_card_fault := none,
          create_edge_fault := none }
        { stories := [{ id := 1, ownerId := 7, title := "T",
                        initial_prompt := "Once" }],
          cards := [], edges := [], nextId := 1 } 1 "go on" none).1.cards ∧
      final.id = 1 ∧
      final.content_text = provisional.content_text ∧
      final.embedding = generate_embedding none final.content_text ∧
      final.embedding ≠ [] ∧
      (generate_story_segment_task
        { embedding_model := none, dist := fun _ _ => 0,
          create_card_fault := none, save_card_fault := none,
          create_edge_fault := none }
        { stories := [{ id := 1, ownerId := 7, title := "T",
                        initial_prompt := "Once" }],
          cards := [], edges := [], nextId := 1 } 1 "go on" none).2.2 =
        TaskResult.success 1 final.content_text) :=
  ⟨rfl,
   two_phase_embedding_write
     { embedding_model := none, dist := fun _ _ => 0,
       create_card_fault := none, save_card_fault := none,
       create_edge_fault := none }
     { stories := [{ id := 1, ownerId := 7, title := "T",
                     initial_prompt := "Once" }],
       cards := [], edges := [], nextId := 1 }
     { id := 1, ownerId := 7, title := "T", initial_prompt := "Once" }
     1 "go on" none rfl rfl rfl rfl⟩

/-- C5: when a parent id is supplied but no such segment exists in the
story, the turn task still persists the new segment, creates no edge,
logs the parent-not-found warning, and returns success. -/
theorem missing_parent_soft_success (env : Env) (db : DB) (story : Story)
    (story_id p : Nat) (user_prompt : String)
    (hstory : Story.objects_get db story_id = some story)
    (hcf : env.create_card_fault = none) (hsf : env.save_card_fault = none)
    (hp : p ≠ 0) (hnew : p ≠ db.nextId)
    (hmiss : ∀ c ∈ db.cards, ¬(c.id = p ∧ c.storyId = story_id)) :
    (∃ txt, (generate_story_segment_task env db story_id user_prompt (some p)).2.2 =
      TaskResult.success db.nextId txt) ∧
    (generate_story_segment_task env db story_id user_prompt (some p)).1.edges =
      db.edges ∧
    (∃ c ∈ (generate_story_segment_task env db story_id user_prompt (some p)).1.cards,
      c.id = db.nextId ∧ c.storyId = story_id) ∧
    (generate_story_segment_task env db story_id user_prompt (some p)).1.cards.length =
      db.cards.length + 1 ∧
    LogEntry.warning ("Parent card " ++ toString p ++ " not found for story " ++
        toString story_id) ∈
      (generate_story_segment_task env db story_id user_prompt (some p)).2.1 := by
  have hsid : story.id = story_id := by
    have := List.find?_some hstory
    simpa using this
  simp only [generate_story_segment_task, hstory, hcf, hsf,
    FlashCard.objects_create, DB.writeCard, save_hook_generate]
  split
  · split
    · -- parent not found: the soft-failure branch
      refine ⟨⟨_, rfl⟩, rfl, ?_, ?_, ?_⟩
      · refine ⟨_, List.mem_map.mpr ⟨_,
          List.mem_append_right _ (List.mem_singleton.mpr rfl), rfl⟩, ?_⟩
        simp [hsid]
      · simp
      · simp
    · -- a card with the parent id exists: contradiction
      rename_i c heq
      have hpc := List.find?_some heq
      have hmc := List.mem_of_find?_eq_some heq
      rcases List.mem_map.mp hmc with ⟨orig, horig, rfl⟩
      by_cases hid : (orig.id == db.nextId) = true
      · rw [if_pos hid] at hpc
        simp only [Bool.and_eq_true, beq_iff_eq] at hpc
        exact absurd hpc.1.symm hnew
      · rw [if_neg hid] at hpc
        simp only [Bool.and_eq_true, beq_iff_eq] at hpc
        rcases List.mem_append.mp horig with horig | horig
        · exact absurd ⟨hpc.1, hsid ▸ hpc.2⟩ (hmiss orig horig)
        · rw [List.mem_singleton.mp horig] at hid
          simp at hid
  · rename_i htr
    exact absurd (by simpa [truthy] using hp) htr

/-- Witness for C5: parent id 99 does not exist in the one-story
store, yet the task succeeds, adds one card and no edge, and logs the
warning. -/
theorem missing_parent_soft_success_witness :
    Story.objects_get dbW 1 =
      some { id := 1, ownerId := 7, title := "T", initial_prompt := "Once" } ∧
    (99 : Nat) ≠ 0 ∧ (99 : Nat) ≠ dbW.nextId ∧
    (∀ c ∈ dbW.cards, ¬(c.id = 99 ∧ c.storyId = 1)) ∧
    ((∃ txt, (generate_story_segment_task envW dbW 1 "go" (some 99)).2.2 =
        TaskResult.success dbW.nextId txt) ∧
      (generate_story_segment_task envW dbW 1 "go" (some 99)).1.edges =
        dbW.edges ∧
      (∃ c ∈ (generate_story_segment_task envW dbW 1 "go" (some 99)).1.cards,
        c.id = dbW.nextId ∧ c.storyId = 1) ∧
      (generate_story_segment_task envW dbW 1 "go" (some 99)).1.cards.length =
        dbW.cards.length + 1 ∧
      LogEntry.warning ("Parent card " ++ toString (99 : Nat) ++
          " not found for story " ++ toString (1 : Nat)) ∈
        (generate_story_segment_task envW dbW 1 "go" (some 99)).2.1) :=
  ⟨rfl, by decide, by decide, by simp [dbW],
   missing_parent_soft_success envW dbW
     { id := 1, ownerId := 7, title := "T", initial_prompt := "Once" }
     1 99 "go" rfl rfl rfl (by decide) (by decide) (by simp [dbW])⟩

/-- C6: the turn task never propagates an exception — whenever it
reports a failure it returns the structured dict carrying the
originating error message, the message is logged, no edge was written,
and the cards table is either untouched (failure before the persist
step) or holds exactly one new already-persisted row that is not
rolled back. -/
theorem task_failure_structured (env : Env) (db : DB) (story_id : Nat)
    (user_prompt : String) (parent_card_id : Option Nat) (e : String)
    (hfail : (generate_story_segment_task env db story_id user_prompt
      parent_card_id).2.2 = TaskResult.failure e) :
    (generate_story_segment_task env db story_id user_prompt
      parent_card_id).1.edges = db.edges ∧
    ((generate_story_segment_task env db story_id user_prompt
        parent_card_id).1.cards = db.cards ∨
      ((generate_story_segment_task env db story_id user_prompt
          parent_card_id).1.cards.length = db.cards.length + 1 ∧
        ∃ c ∈ (generate_story_segment_task env db story_id user_prompt
          parent_card_id).1.cards, c.id = db.nextId ∧ c.embedding ≠ [])) ∧
    LogEntry.error ("Error generating story segment for story " ++
        toString story_id ++ ": " ++ e) ∈
      (generate_story_segment_task env db story_id user_prompt
        parent_card_id).2.1 := by
  rcases task_outcomes env db story_id user_prompt parent_card_id with
    ⟨cid, txt, hs⟩ | ⟨e', he', hedges, hcards, hlog⟩
  · rw [hfail] at hs
    cases hs
  · rw [hfail] at he'
    injection he' with h
    subst h
    exact ⟨hedges, hcards, hlog⟩

/-- Witness for C6: with a story, a parent card and a failing edge
insert, the task returns the structured failure, keeps the persisted
new card and writes no edge. -/
theorem task_failure_structured_witness :
    (generate_story_segment_task envF dbW1 1 "go" (some 1)).2.2 =
      TaskResult.failure "boom" ∧
    ((generate_story_segment_task envF dbW1 1 "go" (some 1)).1.edges =
      dbW1.edges ∧
    ((generate_story_segment_task envF dbW1 1 "go" (some 1)).1.cards =
        dbW1.cards ∨
      ((generate_story_segment_task envF dbW1 1 "go" (some 1)).1.cards.length =
          dbW1.cards.length + 1 ∧
        ∃ c ∈ (generate_story_segment_task envF dbW1 1 "go" (some 1)).1.cards,
          c.id = dbW1.nextId ∧ c.embedding ≠ [])) ∧
    LogEntry.error ("Error generating story segment for story " ++
        toString (1 : Nat) ++ ": " ++ "boom") ∈
      (generate_story_segment_task envF dbW1 1 "go" (some 1)).2.1) :=
  ⟨by decide,
   task_failure_structured envF dbW1 1 "go" (some 1) "boom" (by decide)⟩

/-- Cards of the rewritten table produced by the turn task's persist
phase all carry a 384-dimension embedding. -/
theorem mem_map_write_length (m : Option SentenceTransformer) (cards : List Card)
    (i sid : Nat) (txt t1 t2 : String)
    (hinv : ∀ c ∈ cards, c.embedding.length = 384) :
    ∀ c ∈ (cards ++
        [({ id := i, storyId := sid, content_text := txt,
            embedding := generate_embedding m t1, image_url := none } : Card)]).map
      (fun d : Card => if d.id == i then
        ({ id := i, storyId := sid, content_text := txt,
           embedding := generate_embedding m t2, image_url := none } : Card)
        else d), c.embedding.length = 384 := by
  intro c hc
  rcases List.mem_map.mp hc with ⟨orig, horig, rfl⟩
  by_cases hid : (orig.id == i) = true
  · rw [if_pos hid]
    exact generate_embedding_length m t2
  · rw [if_neg hid]
    rcases List.mem_append.mp horig with h | h
    · exact hinv orig h
    · rw [List.mem_singleton.mp h]
      exact generate_embedding_length m t1

/-- C9: every persisted segment carries a populated 384-dimension
embedding — the `save` hook generates one from the content text when
none was provided and never stores an empty one, and each task
preserves the all-384 invariant of the cards table. -/
theorem embedding_always_populated (env : Env) (db : DB)
    (story_id flashcard_id : Nat) (user_prompt : String)
    (parent_card_id : Option Nat) (style : Option String)
    (hinv : ∀ c ∈ db.cards, c.embedding.length = 384) :
    (∀ c : Card, c.embedding = [] →
      (FlashCard.save_hook env.embedding_model c).embedding =
        generate_embedding env.embedding_model c.content_text) ∧
    (∀ c : Card, (FlashCard.save_hook env.embedding_model c).embedding ≠ []) ∧
    (∀ c ∈ (generate_story_segment_task env db story_id user_prompt
      parent_card_id).1.cards, c.embedding.length = 384) ∧
    (∀ c ∈ (create_initial_story_task env db story_id).1.cards,
      c.embedding.length = 384) ∧
    (∀ c ∈ (recalculate_embedding_task env db flashcard_id).1.cards,
      c.embedding.length = 384) ∧
    (∀ c ∈ (generate_image_task env db flashcard_id style).1.cards,
      c.embedding.length = 384) := by
  refine ⟨?_, ?_, ?_, ?_, ?_, ?_⟩
  · intro c hc
    unfold FlashCard.save_hook
    rw [if_pos (List.isEmpty_iff.mpr hc)]
  · intro c
    unfold FlashCard.save_hook
    split
    · exact generate_embedding_ne_nil _ _
    · rename_i h
      intro hc
      exact h (List.isEmpty_iff.mpr hc)
  · intro c hc
    revert hc
    simp only [generate_story_segment_task, FlashCard.objects_create,
      DB.writeCard, save_hook_generate]
    split
    · exact fun hc => hinv c hc
    · split
      · exact fun hc => hinv c hc
      · split
        · intro hc
          rcases List.mem_append.mp hc with h | h
          · exact hinv c h
          · rw [List.mem_singleton.mp h]
            exact generate_embedding_length _ _
        · split
          · split
            · exact fun hc => mem_map_write_length _ _ _ _ _ _ _ hinv c hc
            · split
              · exact fun hc => mem_map_write_length _ _ _ _ _ _ _ hinv c hc
              · exact fun hc => mem_map_write_length _ _ _ _ _ _ _ hinv c hc
          · exact fun hc => mem_map_write_length _ _ _ _ _ _ _ hinv c hc
  · intro c hc
    revert hc
    simp only [create_initial_story_task, FlashCard.objects_create,
      save_hook_generate]
    split
    · exact fun hc => hinv c hc
    · intro hc
      rcases List.mem_append.mp hc with h | h
      · exact hinv c h
      · rw [List.mem_singleton.mp h]
        exact generate_embedding_length _ _
  · intro c hc
    revert hc
    simp only [recalculate_embedding_task, DB.writeCard, save_hook_generate]
    split
    · exact fun hc => hinv c hc
    · intro hc
      rcases List.mem_map.mp hc with ⟨orig, horig, rfl⟩
      by_cases hid : (orig.id == flashcard_id) = true
      · rw [if_pos hid]
        exact generate_embedding_length _ _
      · rw [if_neg hid]
        exact hinv orig horig
  · intro c hc
    revert hc
    simp only [generate_image_task, DB.writeCard]
    split
    · exact fun hc => hinv c hc
    · rename_i card heq
      have hcard : card ∈ db.cards := List.mem_of_find?_eq_some heq
      intro hc
      rcases List.mem_map.mp hc with ⟨orig, horig, rfl⟩
      by_cases hid : (orig.id == flashcard_id) = true
      · rw [if_pos hid]
        unfold FlashCard.save_hook
        split
        · exact generate_embedding_length _ _
        · exact hinv card hcard
      · rw [if_neg hid]
        exact hinv orig horig

set_option maxRecDepth 4000 in
/-- Witness for C9 on the one-card fixture store. -/
theorem embedding_always_populated_witness :
    (∀ c ∈ dbW1.cards, c.embedding.length = 384) ∧
    ((∀ c : Card, c.embedding = [] →
      (FlashCard.save_hook envW.embedding_model c).embedding =
        generate_embedding envW.embedding_model c.content_text) ∧
    (∀ c : Card, (FlashCard.save_hook envW.embedding_model c).embedding ≠ []) ∧
    (∀ c ∈ (generate_story_segment_task envW dbW1 1 "go" (some 1)).1.cards,
      c.embedding.length = 384) ∧
    (∀ c ∈ (create_initial_story_task envW dbW1 1).1.cards,
      c.embedding.length = 384) ∧
    (∀ c ∈ (recalculate_embedding_task envW dbW1 1).1.cards,
      c.embedding.length = 384) ∧
    (∀ c ∈ (generate_image_task envW dbW1 1 none).1.cards,
      c.embedding.length = 384)) :=
  ⟨by decide,
   embedding_always_populated envW dbW1 1 1 "go" (some 1) none (by decide)⟩

/-- C10: a successful image-generation task rewrites only the target
segment's `image_url`: its content text, embedding and owning story,
every other card, all edges and all stories are unchanged. -/
theorem image_task_frame (env : Env) (db : DB) (flashcard_id : Nat)
    (style : Option String) (card : Card)
    (hcard : FlashCard.objects_get db flashcard_id = some card)
    (hemb : card.embedding ≠ []) :
    (generate_image_task env db flashcard_id style).1.stories = db.stories ∧
    (generate_image_task env db flashcard_id style).1.edges = db.edges ∧
    (generate_image_task env db flashcard_id style).2.2 =
      TaskResult.success flashcard_id (generate_image card.content_text style) ∧
    (generate_image_task env db flashcard_id style).1.cards =
      db.cards.map (fun c : Card => if c.id == flashcard_id then
        { card with image_url := some (generate_image card.content_text style) }
        else c) ∧
    (∀ c ∈ db.cards, c.id ≠ flashcard_id →
      c ∈ (generate_image_task env db flashcard_id style).1.cards) := by
  have hs : FlashCard.save_hook env.embedding_model
      { card with image_url := some (generate_image card.content_text style) } =
      { card with image_url := some (generate_image card.content_text style) } :=
    save_hook_of_ne_nil _ _ hemb
  simp only [generate_image_task, hcard, DB.writeCard, hs]
  refine ⟨trivial, trivial, trivial, trivial, ?_⟩
  intro c hc hne
  exact List.mem_map.mpr ⟨c, hc, by simp [hne]⟩

/-- Witness for C10 on the one-card fixture store. -/
theorem image_task_frame_witness :
    FlashCard.objects_get dbW1 1 =
      some { id := 1, storyId := 1, content_text := "start",
             embedding := List.replicate 384 0, image_url := none } ∧
    (List.replicate 384 (0 : ℚ)) ≠ [] ∧
    ((generate_image_task envW dbW1 1 none).1.stories = dbW1.stories ∧
    (generate_image_task envW dbW1 1 none).1.edges = dbW1.edges ∧
    (generate_image_task envW dbW1 1 none).2.2 =
      TaskResult.success 1 (generate_image "start" none) ∧
    (generate_image_task envW dbW1 1 none).1.cards =
      dbW1.cards.map (fun c : Card => if c.id == 1 then
        { id := 1, storyId := 1, content_text := "start",
          embedding := List.replicate 384 0,
          image_url := some (generate_image "start" none) }
        else c) ∧
    (∀ c ∈ dbW1.cards, c.id ≠ 1 →
      c ∈ (generate_image_task envW dbW1 1 none).1.cards)) :=
  ⟨rfl, by decide,
   image_task_frame envW dbW1 1 none
     { id := 1, storyId := 1, content_text := "start",
       embedding := List.replicate 384 0, image_url := none }
     rfl (by decide)⟩

/-- The serializer check `validate_parent_card_id` rejects a truthy parent id absent from
the story. -/
theorem validate_parent_missing (db : DB) (story_id p : Nat) (hp : p ≠ 0)
    (hmiss : ∀ c ∈ db.cards, ¬(c.id = p ∧ c.storyId = story_id)) :
    validate_parent_card_id db story_id (some p) =
      Except.error "Parent card does not exist in this story" := by
  unfold validate_parent_card_id
  rw [if_pos (show truthy (some p) = true by simpa [truthy] using hp)]
  have hfind : db.cards.find?
      (fun c => c.id == (some p).getD 0 && c.storyId == story_id) = none := by
    rw [List.find?_eq_none]
    intro c hc
    simpa using hmiss c hc
  rw [hfind]

/-- The serializer check `validate_parent_card_id` accepts a parent id present in the
story. -/
theorem validate_parent_found (db : DB) (story_id p : Nat) (hp : p ≠ 0)
    (hsome : ∃ c ∈ db.cards, c.id = p ∧ c.storyId = story_id) :
    validate_parent_card_id db story_id (some p) = Except.ok (some p) := by
  unfold validate_parent_card_id
  rw [if_pos (show truthy (some p) = true by simpa [truthy] using hp)]
  have hfind : (db.cards.find?
      (fun c => c.id == (some p).getD 0 && c.storyId == story_id)).isSome = true := by
    rw [List.find?_isSome]
    rcases hsome with ⟨c, hc, h1, h2⟩
    exact ⟨c, hc, by simp [h1, h2]⟩
  rcases Option.isSome_iff_exists.mp hfind with ⟨c, hc⟩
  rw [hc]

/-- C7: the turn-submission endpoint validates synchronously — an
invalid parent id is rejected with the serializer's validation error
and nothing is placed on the queue; when validation passes (a parent
of this story, or no parent) the endpoint dispatches exactly one
pipeline task and answers a 202 acceptance carrying only the task
handle and story id, never generated content. -/
theorem turn_submission_validation (db : DB) (request_user story_pk p : Nat)
    (user_prompt : String) (st : Story)
    (hstory : db.stories.find?
      (fun s => s.id == story_pk && s.ownerId == request_user) = some st)
    (hp : p ≠ 0) :
    ((∀ c ∈ db.cards, ¬(c.id = p ∧ c.storyId = story_pk)) →
      FlashCardCreateView.create db request_user story_pk user_prompt (some p) =
        (ViewOutcome.validationError "Parent card does not exist in this story",
         [])) ∧
    ((∃ c ∈ db.cards, c.id = p ∧ c.storyId = story_pk) →
      FlashCardCreateView.create db request_user story_pk user_prompt (some p) =
        (ViewOutcome.accepted 0 story_pk,
         [{ story_id := story_pk, user_prompt := user_prompt,
            parent_card_id := some p }]) ∧
      (ViewOutcome.accepted 0 story_pk).statusCode = 202) ∧
    (FlashCardCreateView.create db request_user story_pk user_prompt none =
        (ViewOutcome.accepted 0 story_pk,
         [{ story_id := story_pk, user_prompt := user_prompt,
            parent_card_id := none }]) ∧
      (ViewOutcome.accepted 0 story_pk).statusCode = 202) := by
  refine ⟨?_, ?_, ?_⟩
  · intro hmiss
    simp only [FlashCardCreateView.create, hstory,
      validate_parent_missing db story_pk p hp hmiss]
  · intro hsome
    refine ⟨?_, rfl⟩
    simp only [FlashCardCreateView.create, hstory,
      validate_parent_found db story_pk p hp hsome]
  · refine ⟨?_, rfl⟩
    simp only [FlashCardCreateView.create, hstory]
    rfl

/-- Witness for C7 on the one-card fixture store: parent 99 is
rejected without a dispatch, parent 1 and no parent are accepted with
a 202 and one dispatch. -/
theorem turn_submission_validation_witness :
    dbW1.stories.find? (fun s => s.id == 1 && s.ownerId == 7) =
      some { id := 1, ownerId := 7, title := "T", initial_prompt := "Once" } ∧
    (99 : Nat) ≠ 0 ∧
    (∀ c ∈ dbW1.cards, ¬(c.id = 99 ∧ c.storyId = 1)) ∧
    FlashCardCreateView.create dbW1 7 1 "go" (some 99) =
      (ViewOutcome.validationError "Parent card does not exist in this story",
       []) ∧
    (1 : Nat) ≠ 0 ∧
    (∃ c ∈ dbW1.cards, c.id = 1 ∧ c.storyId = 1) ∧
    FlashCardCreateView.create dbW1 7 1 "go" (some 1) =
      (ViewOutcome.accepted 0 1,
       [{ story_id := 1, user_prompt := "go", parent_card_id := some 1 }]) ∧
    FlashCardCreateView.create dbW1 7 1 "go" none =
      (ViewOutcome.accepted 0 1,
       [{ story_id := 1, user_prompt := "go", parent_card_id := none }]) ∧
    (ViewOutcome.accepted 0 1).statusCode = 202 := by
  have h99 := turn_submission_validation dbW1 7 1 99 "go"
    { id := 1, ownerId := 7, title := "T", initial_prompt := "Once" }
    rfl (by decide)
  have h1 := turn_submission_validation dbW1 7 1 1 "go"
    { id := 1, ownerId := 7, title := "T", initial_prompt := "Once" }
    rfl (by decide)
  exact ⟨rfl, by decide, by decide, h99.1 (by decide), by decide, by decide,
    (h1.2.1 (by decide)).1, h1.2.2.1, rfl⟩

end StoryScape
